import Mathlib

/-!
Verification of the health-evaluation core of aurproxy
(`src/tellapart/aurproxy/share/adjusters/health.py`), shallowly embedded in
Lean 4.  Pure data is translated directly; the stateful pieces
(`_update_status`, `_check`, the gevent scheduling loop) are embedded as
explicit state-passing functions and, for the scheduler, a small-step event
system.  Exceptional control flow (Python `try`/`except`/`else`) is made
explicit in the return types.
-/

/-- `HealthCheckResult` from health.py: possible results of individual check
runs. -/
inductive HealthCheckResult where
  | error_code
  | known_local_error
  | known_remote_error
  | success
  | timeout
  | unknown_error
  | connection_error
deriving DecidableEq, Repr

/-- `HEALTHY_RESULTS = [ HealthCheckResult.SUCCESS ]`. -/
def HEALTHY_RESULTS : List HealthCheckResult := [HealthCheckResult.success]

/-- `UNCHANGED_RESULTS = [ HealthCheckResult.KNOWN_LOCAL_ERROR ]`. -/
def UNCHANGED_RESULTS : List HealthCheckResult := [HealthCheckResult.known_local_error]

/-- `UNHEALTHY_RESULTS` from health.py. -/
def UNHEALTHY_RESULTS : List HealthCheckResult :=
  [HealthCheckResult.error_code,
   HealthCheckResult.known_remote_error,
   HealthCheckResult.timeout,
   HealthCheckResult.connection_error,
   HealthCheckResult.unknown_error]

/-- `HealthCheckStatus` from health.py: possible statuses of ongoing check
instances. -/
inductive HealthCheckStatus where
  | healthy
  | initializing
  | unhealthy
deriving DecidableEq, Repr

/-- `HEALTHY_STATUSES = [ HealthCheckStatus.HEALTHY ]`. -/
def HEALTHY_STATUSES : List HealthCheckStatus := [HealthCheckStatus.healthy]

/-- `AuditItem(name, value)` as used by `auditable_share`
(`AuditItem('health', '1.0')` / `AuditItem('health', '0.0')`). -/
structure AuditItem where
  name : String
  value : String
deriving DecidableEq, Repr

/-- `auditable_share` (health.py lines 156-163): `1.0` with audit item
`health=1.0` when the current status is in `HEALTHY_STATUSES`, else `0.0`
with audit item `health=0.0`.  The Python floats `1.0`/`0.0` are embedded as
the rationals `1`/`0` (no arithmetic is ever performed on them). -/
def auditable_share (status : HealthCheckStatus) : ℚ × AuditItem :=
  if status ∈ HEALTHY_STATUSES then
    (1, AuditItem.mk "health" "1.0")
  else
    (0, AuditItem.mk "health" "0.0")

/-- The two integer thresholds of `HttpHealthCheckShareAdjuster.__init__`
(`healthy_threshold`, `unhealthy_threshold`). -/
structure CheckConfig where
  healthy_threshold : Nat
  unhealthy_threshold : Nat
deriving DecidableEq, Repr

/-- `collections.deque(maxlen=m).append(x)`: the new element goes to the
right; when the deque is full the oldest (leftmost) element is evicted. -/
def dequeAppend {α : Type} (maxlen : Nat) (xs : List α) (x : α) : List α :=
  if maxlen < (xs ++ [x]).length then
    (xs ++ [x]).drop ((xs ++ [x]).length - maxlen)
  else
    xs ++ [x]

/-- Python list slicing `xs[-t:]` as used for the lookbacks in
`_update_status`: for `t = 0` this is the whole list (`xs[-0:] == xs[0:]`),
otherwise the last `min t xs.length` elements. -/
def lookback {α : Type} (xs : List α) (t : Nat) : List α :=
  if t = 0 then xs else xs.drop (xs.length - t)

/-- The healthy-lookback condition of `_update_status` (lines 301-304):
`len(healthy_lookback) == healthy_threshold and all(cr in HEALTHY_RESULTS
for cr in healthy_lookback)`. -/
def healthyCond (t : Nat) (xs : List HealthCheckResult) : Bool :=
  ((lookback xs t).length == t) &&
    (lookback xs t).all (fun cr => decide (cr ∈ HEALTHY_RESULTS))

/-- The unhealthy-lookback condition of `_update_status` (lines 306-309). -/
def unhealthyCond (t : Nat) (xs : List HealthCheckResult) : Bool :=
  ((lookback xs t).length == t) &&
    (lookback xs t).all (fun cr => decide (cr ∈ UNHEALTHY_RESULTS))

/-- The evaluator state owned by one adjuster instance: `self._status` and
`self._check_results`. -/
structure EvalState where
  status : HealthCheckStatus
  check_results : List HealthCheckResult
deriving DecidableEq, Repr

/-- State set up by `__init__`: `self._status = INITIALIZING`, empty deque. -/
def initialEvalState : EvalState :=
  EvalState.mk HealthCheckStatus.initializing []

/-- Behaviour of `self._signal_update_fn` when `_update_status` invokes it:
it may be absent (`None`, falsy, so never called), return normally, raise an
exception whose `args` tuple is non-empty, or raise an exception whose
`args` tuple is empty (in which case the handler's `ex.args[0]` itself
raises `IndexError`). -/
inductive CallbackBehavior where
  | absent
  | returns
  | raisesWithArgs
  | raisesNoArgs
deriving DecidableEq, Repr

/-- Everything observable about one `_update_status` call: the state it
leaves behind, whether the status transitioned, whether the callback was
invoked, how many times the `RUNNING_CALLBACK` failure counter was
incremented, and whether an exception escaped `_update_status`. -/
structure UpdateOutcome where
  state : EvalState
  transitioned : Bool
  callbackInvoked : Bool
  callbackFailuresCounted : Nat
  escaped : Bool
deriving DecidableEq, Repr

/-- The deque after `self._check_results.append(check_result)` (health.py
line 298): capacity is `healthy_threshold + unhealthy_threshold` as fixed
in `__init__` (line 119-120). -/
def appendResult (cfg : CheckConfig) (st : EvalState)
    (check_result : HealthCheckResult) : List HealthCheckResult :=
  dequeAppend (cfg.healthy_threshold + cfg.unhealthy_threshold)
    st.check_results check_result

/-- `calculated_status` at the end of the two lookback blocks of
`_update_status` (lines 300-309): it starts as the current status, the
healthy lookback may set it to `HEALTHY`, and the unhealthy lookback is
evaluated afterwards and may overwrite it with `UNHEALTHY` — hence the
unhealthy condition is tested first here, the healthy condition second,
and the current status is the fallback. -/
def calculatedStatus (cfg : CheckConfig) (current : HealthCheckStatus)
    (results : List HealthCheckResult) : HealthCheckStatus :=
  if unhealthyCond cfg.unhealthy_threshold results then HealthCheckStatus.unhealthy
  else if healthyCond cfg.healthy_threshold results then HealthCheckStatus.healthy
  else current

/-- `HttpHealthCheckShareAdjuster._update_status` (health.py lines 286-332).
Results in `UNCHANGED_RESULTS` return immediately.  Otherwise the result is
appended to the bounded deque, the lookbacks produce `calculated_status`,
and on a status change the callback (if any) is invoked.  A callback
exception is caught by `except Exception`, but the handler then evaluates
`ex.args[0]` to label the `RUNNING_CALLBACK` counter: when `args` is empty
this raises `IndexError` before the counter is incremented, and that
`IndexError` escapes `_update_status` (modelled by `escaped`).  The
`_record_msg` calls re-run `_build_check_uri`, which has already succeeded
earlier in the `_check` flow.  -/
def update_status (cfg : CheckConfig) (cb : CallbackBehavior) (st : EvalState)
    (check_result : HealthCheckResult) : UpdateOutcome :=
  if check_result ∈ UNCHANGED_RESULTS then
    UpdateOutcome.mk st false false 0 false
  else if st.status = calculatedStatus cfg st.status (appendResult cfg st check_result) then
    UpdateOutcome.mk
      (EvalState.mk st.status (appendResult cfg st check_result)) false false 0 false
  else
    UpdateOutcome.mk
      (EvalState.mk (calculatedStatus cfg st.status (appendResult cfg st check_result))
        (appendResult cfg st check_result))
      true
      (decide (cb ≠ CallbackBehavior.absent))
      (if cb = CallbackBehavior.raisesWithArgs then 1 else 0)
      (decide (cb = CallbackBehavior.raisesNoArgs))

/-- Folding a whole sequence of classified results through
`_update_status`, keeping only the evaluator state. -/
def foldResults (cfg : CheckConfig) (cb : CallbackBehavior) (st : EvalState)
    (rs : List HealthCheckResult) : EvalState :=
  rs.foldl (fun s r => (update_status cfg cb s r).state) st

/-- Outcome of the `request.urlopen(check_uri, timeout=...)` call in
`_check` (health.py line 205), as the surrounding `try` statement can
observe it:
* `response code` — the call returned a response `r` with
  `r.getcode() = code`;
* `httpError code` — the call raised `urllib.error.HTTPError` carrying
  `code` (a well-formed HTTP error response);
* `urlError timedOut` — the call raised a `urllib.error.URLError` that is
  not an `HTTPError` (DNS failure, refused connection, or a connect-phase
  timeout wrapped as `URLError(socket.timeout)`, flagged by `timedOut`);
* `socketTimeout` — the call raised a bare socket timeout (a read-phase
  timeout surfaces from `http.client` as `socket.timeout`, which is not a
  `URLError`);
* `otherException` — the call raised any other exception type. -/
inductive ProbeOutcome where
  | response (code : Nat)
  | httpError (code : Nat)
  | urlError (timedOut : Bool)
  | socketTimeout
  | otherException
deriving DecidableEq, Repr

/-- What the classification phase of `_check` produces: either a
`check_result` value handed on to `_update_status`, or an exception that no
`except` clause matches and which therefore escapes `_check`. -/
inductive CheckEffect where
  | classified (r : HealthCheckResult)
  | escaped
deriving DecidableEq, Repr

/-- Telemetry increment recorded during the classification phase of
`_check` (the `HEALTHY` / `UNHEALTHY` counters with their `type` and
`status_code` labels; the free-form `source` label is not modelled). -/
inductive Telemetry where
  | healthyInc
  | unhealthyInc (typ : HealthCheckResult) (status_code : Nat)
  | noRecord
deriving DecidableEq, Repr

/-- The `try`/`except`/`except`/`else` statement of `_check` (health.py
lines 194-239).  Inside the `try` suite a 200 response sets `check_result =
SUCCESS` and increments `HEALTHY`; any other code sets `check_result =
ERROR_CODE` and increments `UNHEALTHY`.  However, the `try` statement also
has an `else` clause (lines 235-236), which runs exactly when the suite
raised no exception and reassigns `check_result = SUCCESS`, discarding the
value computed in the suite.  `HTTPError` is caught before `URLError`;
exceptions of any other type (bare socket timeouts, `KeyError`, ...) match
no clause and escape. -/
def classify_check : ProbeOutcome → CheckEffect × Telemetry
  | ProbeOutcome.response code =>
      let in_try := if code == 200 then HealthCheckResult.success
                    else HealthCheckResult.error_code
      let tele := if code == 200 then Telemetry.healthyInc
                  else Telemetry.unhealthyInc HealthCheckResult.error_code code
      let _ := in_try
      let check_result := HealthCheckResult.success
      (CheckEffect.classified check_result, tele)
  | ProbeOutcome.httpError code =>
      (CheckEffect.classified HealthCheckResult.error_code,
       Telemetry.unhealthyInc HealthCheckResult.error_code code)
  | ProbeOutcome.urlError _ =>
      (CheckEffect.classified HealthCheckResult.unknown_error,
       Telemetry.unhealthyInc HealthCheckResult.unknown_error 502)
  | ProbeOutcome.socketTimeout => (CheckEffect.escaped, Telemetry.noRecord)
  | ProbeOutcome.otherException => (CheckEffect.escaped, Telemetry.noRecord)

/-- Everything observable about one firing of `_check`: whether a probe was
performed, the evaluator state afterwards, whether an exception escaped the
firing, whether `spawn_later(self._interval, self._check)` on line 249 ran
(rescheduling the next firing), and the `RUNNING_CALLBACK` increments. -/
structure FiringOutcome where
  performedProbe : Bool
  state : EvalState
  escaped : Bool
  rescheduled : Bool
  callbackFailuresCounted : Nat
deriving DecidableEq, Repr

/-- One firing of `HttpHealthCheckShareAdjuster._check` (health.py lines
181-249).  If `self._stop_event.is_set()` the firing returns at once: no
probe, no reschedule.  Otherwise `_build_check_uri()` runs inside the `try`
(`uriBuildOk` records whether its `port_map` lookup succeeds; a `KeyError`
there matches no `except` clause and escapes).  The probe outcome is then
classified; an uncaught exception likewise escapes before `_update_status`
and the `spawn_later` on line 249.  Otherwise `_update_status` runs with the
classified result; if it raises (argless callback exception), line 249 is
skipped, else the next firing is rescheduled. -/
def check_fire (cfg : CheckConfig) (cb : CallbackBehavior) (st : EvalState)
    (stopFlagSet : Bool) (uriBuildOk : Bool) (po : ProbeOutcome) : FiringOutcome :=
  if stopFlagSet then
    FiringOutcome.mk false st false false 0
  else if !uriBuildOk then
    FiringOutcome.mk false st true false 0
  else
    match (classify_check po).1 with
    | CheckEffect.escaped => FiringOutcome.mk true st true false 0
    | CheckEffect.classified r =>
        if (update_status cfg cb st r).escaped then
          FiringOutcome.mk true (update_status cfg cb st r).state true false
            (update_status cfg cb st r).callbackFailuresCounted
        else
          FiringOutcome.mk true (update_status cfg cb st r).state false true
            (update_status cfg cb st r).callbackFailuresCounted

/-- The endpoint descriptor as `_build_check_uri` consumes it: `host`,
direct `port`, and the endpoint `context` dict, of which only the presence
and value of the `port_map` key and the optional `source` entry matter. -/
structure Endpoint where
  host : String
  port : Nat
  context_port_map : Option (List (String × Nat))
  context_source : Option String
deriving DecidableEq, Repr

/-- Python truthiness of `self._port_name` (a `str` or `None`): truthy iff
it is a non-empty string. -/
def pyStrTruthy : Option String → Bool
  | none => false
  | some s => !(s == "")

/-- `uri_template.format(host, port, route)` with
`uri_template = 'http://{0}:{1}{2}'`. -/
def uriFormat (host : String) (port : Nat) (route : String) : String :=
  "http://" ++ host ++ ":" ++ toString port ++ route

/-- `HttpHealthCheckShareAdjuster._build_check_uri` (health.py lines
165-179): when `self._port_name` is truthy and the key `'port_map'` is in
the endpoint context, the port is `self._endpoint.context['port_map']
[self._port_name]` (a dict lookup, which raises `KeyError` when the name is
absent — modelled as `Except.error`); in every other case the endpoint's
direct `port` is used. -/
def build_check_uri (port_name : Option String) (route : String)
    (ep : Endpoint) : Except String String :=
  if pyStrTruthy port_name && ep.context_port_map.isSome then
    match ep.context_port_map, port_name with
    | some m, some n =>
        match m.lookup n with
        | some p => Except.ok (uriFormat ep.host p route)
        | none => Except.error "KeyError"
    | _, _ => Except.error "KeyError"
  else
    Except.ok (uriFormat ep.host ep.port route)

/-- State of the cooperative scheduling loop of one adjuster:
`stopFlagSet` is `self._stop_event` (set by `stop()`, never cleared),
`scheduledCount` counts `spawn_later` callbacks pending execution, and
`probing` records whether a firing is currently blocked in `urlopen`. -/
structure SchedulerState where
  stopFlagSet : Bool
  scheduledCount : Nat
  probing : Bool
deriving DecidableEq, Repr

/-- State right after `start()`: one firing scheduled
(`spawn_later(self._interval, self._check)`), stop flag unset, no probe in
flight. -/
def schedInit : SchedulerState := SchedulerState.mk false 1 false

/-- Events of the cooperative scheduling loop: `stop()` being called from
another greenlet; a scheduled `_check` beginning to run; and an in-flight
`_check` returning from `urlopen` and running to completion (which ends in
`spawn_later` on line 249, rescheduling the next firing). -/
inductive SchedEvent where
  | stopRequest
  | fireStart
  | probeComplete
deriving DecidableEq, Repr

/-- Small-step semantics of the scheduling loop, from health.py:
* `stopRequest` — `stop()` runs `self._stop_event.set()` (line 152); the
  event is never cleared.
* `fireStart` — a scheduled `_check` starts.  Guards: it only happens when
  a firing is scheduled, and gevent's single-threaded execution keeps
  firings of one adjuster sequential, so not while a probe is in flight
  (ill-formed events stutter).  At its top `_check` tests
  `self._stop_event.is_set()` (line 188): if set it returns — no probe is
  issued and nothing is rescheduled; otherwise the probe begins.
* `probeComplete` — the in-flight firing finishes and unconditionally runs
  `spawn_later(self._interval, self._check)` (line 249), even when the stop
  flag was set while the probe was in flight. -/
def schedulerStep (s : SchedulerState) (e : SchedEvent) : SchedulerState :=
  match e with
  | SchedEvent.stopRequest =>
      SchedulerState.mk true s.scheduledCount s.probing
  | SchedEvent.fireStart =>
      if s.probing = true then s
      else if s.scheduledCount = 0 then s
      else if s.stopFlagSet = true then
        SchedulerState.mk s.stopFlagSet (s.scheduledCount - 1) s.probing
      else
        SchedulerState.mk s.stopFlagSet (s.scheduledCount - 1) true
  | SchedEvent.probeComplete =>
      if s.probing = true then
        SchedulerState.mk s.stopFlagSet (s.scheduledCount + 1) false
      else s

/-- Run the scheduling loop over a sequence of events. -/
def runSched (s : SchedulerState) (es : List SchedEvent) : SchedulerState :=
  List.foldl schedulerStep s es

/-- Number of probes that run to completion along an event sequence (a
`probeComplete` event counts only when a probe is actually in flight). -/
def countCompletes : SchedulerState → List SchedEvent → Nat
  | _, [] => 0
  | s, e :: es =>
      (if e = SchedEvent.probeComplete ∧ s.probing = true then 1 else 0) +
        countCompletes (schedulerStep s e) es

lemma dequeAppend_length_le_of_le {α : Type} (m : Nat) (xs : List α) (x : α) :
    (dequeAppend m xs x).length ≤ m := by
  unfold dequeAppend
  split
  · rename_i h
    rw [List.length_drop]
    omega
  · rename_i h
    simp only [List.length_append, List.length_cons, List.length_nil] at *
    omega

lemma update_status_state_length (cfg : CheckConfig) (cb : CallbackBehavior)
    (st : EvalState) (r : HealthCheckResult) :
    (update_status cfg cb st r).state.check_results.length ≤
        cfg.healthy_threshold + cfg.unhealthy_threshold ∨
      (update_status cfg cb st r).state.check_results = st.check_results := by
  unfold update_status
  split
  · right; rfl
  · split
    · left
      exact dequeAppend_length_le_of_le _ _ _
    · left
      exact dequeAppend_length_le_of_le _ _ _

lemma foldResults_length (cfg : CheckConfig) (cb : CallbackBehavior)
    (rs : List HealthCheckResult) :
    ∀ st : EvalState,
      st.check_results.length ≤ cfg.healthy_threshold + cfg.unhealthy_threshold →
      (foldResults cfg cb st rs).check_results.length ≤
        cfg.healthy_threshold + cfg.unhealthy_threshold := by
  induction rs with
  | nil => intro st h; exact h
  | cons r rs ih =>
      intro st h
      have hstep := update_status_state_length cfg cb st r
      have hnext : (update_status cfg cb st r).state.check_results.length ≤
          cfg.healthy_threshold + cfg.unhealthy_threshold := by
        rcases hstep with h1 | h2
        · exact h1
        · rw [h2]; exact h
      exact ih _ hnext

lemma lookback_length_ge {α : Type} (xs : List α) (t : Nat)
    (h : (lookback xs t).length = t) : t ≤ xs.length := by
  unfold lookback at h
  split at h
  · omega
  · rw [List.length_drop] at h
    omega

lemma update_status_escaped_false (cfg : CheckConfig) (cb : CallbackBehavior)
    (st : EvalState) (r : HealthCheckResult)
    (h : cb ≠ CallbackBehavior.raisesNoArgs) :
    (update_status cfg cb st r).escaped = false := by
  unfold update_status
  split
  · rfl
  · split
    · rfl
    · simpa using h

/-- Claim C5: for every sequence of classified results fed to the
evaluator, the length of the history buffer never exceeds
`healthy_threshold + unhealthy_threshold` (every sequence includes every
prefix of a longer run, so the bound holds at every intermediate point). -/
theorem c5_history_bound (cfg : CheckConfig) (cb : CallbackBehavior)
    (rs : List HealthCheckResult) :
    (foldResults cfg cb initialEvalState rs).check_results.length ≤
      cfg.healthy_threshold + cfg.unhealthy_threshold := by
  apply foldResults_length
  simp [initialEvalState]

/-- Claim C6: the status changes to `healthy` in a fold step only if, after
appending the new result, the history holds at least `healthy_threshold`
entries and the most recent `healthy_threshold` entries are all in the
healthy set.  The contrapositive of the first conjunct is the claim's "in
particular": with fewer entries than `healthy_threshold` the healthy
condition can never trigger. -/
theorem c6_healthy_only_if (cfg : CheckConfig) (cb : CallbackBehavior)
    (st : EvalState) (r : HealthCheckResult)
    (h1 : (update_status cfg cb st r).transitioned = true)
    (h2 : (update_status cfg cb st r).state.status = HealthCheckStatus.healthy) :
    cfg.healthy_threshold ≤ (appendResult cfg st r).length ∧
      (lookback (appendResult cfg st r) cfg.healthy_threshold).all
        (fun cr => decide (cr ∈ HEALTHY_RESULTS)) = true := by
  by_cases hmem : r ∈ UNCHANGED_RESULTS
  · rw [update_status, if_pos hmem] at h1
    cases h1
  · by_cases hu : unhealthyCond cfg.unhealthy_threshold (appendResult cfg st r) = true
    · have hcalc : calculatedStatus cfg st.status (appendResult cfg st r) =
          HealthCheckStatus.unhealthy := by
        rw [calculatedStatus, if_pos hu]
      by_cases heq : st.status = calculatedStatus cfg st.status (appendResult cfg st r)
      · rw [update_status, if_neg hmem, if_pos heq] at h1
        cases h1
      · rw [update_status, if_neg hmem, if_neg heq] at h2
        dsimp at h2
        rw [hcalc] at h2
        cases h2
    · by_cases hh : healthyCond cfg.healthy_threshold (appendResult cfg st r) = true
      · have hh' := hh
        unfold healthyCond at hh'
        rw [Bool.and_eq_true] at hh'
        refine ⟨lookback_length_ge _ _ ?_, hh'.2⟩
        simpa using hh'.1
      · have hcalc : calculatedStatus cfg st.status (appendResult cfg st r) = st.status := by
          rw [calculatedStatus, if_neg hu, if_neg hh]
        rw [update_status, if_neg hmem, if_pos hcalc.symm] at h1
        cases h1

/-- Witness for C6 at a concrete input: with `healthy_threshold = 1`, a
single `success` from the initializing state transitions to `healthy`, and
the appended history satisfies the stated conditions. -/
theorem c6_healthy_only_if_witness :
    (update_status (CheckConfig.mk 1 1) CallbackBehavior.absent initialEvalState
        HealthCheckResult.success).transitioned = true ∧
    (update_status (CheckConfig.mk 1 1) CallbackBehavior.absent initialEvalState
        HealthCheckResult.success).state.status = HealthCheckStatus.healthy ∧
    (1 ≤ (appendResult (CheckConfig.mk 1 1) initialEvalState
        HealthCheckResult.success).length ∧
      (lookback (appendResult (CheckConfig.mk 1 1) initialEvalState
            HealthCheckResult.success) 1).all
          (fun cr => decide (cr ∈ HEALTHY_RESULTS)) = true) :=
  ⟨by decide, by decide,
   c6_healthy_only_if (CheckConfig.mk 1 1) CallbackBehavior.absent
     initialEvalState HealthCheckResult.success (by decide) (by decide)⟩

/-- Claim C7: feeding a `known_local_error` result leaves the whole
`_update_status` outcome inert — status unchanged, nothing appended to the
history, callback not invoked, nothing counted, nothing escapes — for every
configuration, callback behaviour and prior state. -/
theorem c7_known_local_error_frame (cfg : CheckConfig) (cb : CallbackBehavior)
    (st : EvalState) :
    update_status cfg cb st HealthCheckResult.known_local_error =
      UpdateOutcome.mk st false false 0 false := by
  rfl

/-- Claim C8: `auditable_share` returns multiplier `1.0` with audit item
`health=1.0` iff the status is `healthy`, and returns `0.0` with audit item
`health=0.0` for `initializing` and `unhealthy`. -/
theorem c8_auditable_share (s : HealthCheckStatus) :
    (auditable_share s = ((1 : ℚ), AuditItem.mk "health" "1.0") ↔
        s = HealthCheckStatus.healthy) ∧
      (s = HealthCheckStatus.initializing ∨ s = HealthCheckStatus.unhealthy →
        auditable_share s = ((0 : ℚ), AuditItem.mk "health" "0.0")) := by
  cases s <;> decide

/-- Witness for C8 at concrete inputs: the healthy status yields `(1.0,
health=1.0)` and the initializing status yields `(0.0, health=0.0)`. -/
theorem c8_auditable_share_witness :
    auditable_share HealthCheckStatus.healthy = ((1 : ℚ), AuditItem.mk "health" "1.0") ∧
      auditable_share HealthCheckStatus.initializing =
        ((0 : ℚ), AuditItem.mk "health" "0.0") :=
  ⟨(c8_auditable_share HealthCheckStatus.healthy).1.mpr rfl,
   (c8_auditable_share HealthCheckStatus.initializing).2 (Or.inl rfl)⟩

/-- Claim C1 (code bug): at the concrete failing input — an HTTP response
with status code 503 and no transport exception — the `try` suite of
`_check` sets `check_result = ERROR_CODE` and increments the `UNHEALTHY`
counter with labels `type=error_code, status_code=503`, but the `try`
statement's `else` clause (health.py line 235-236) then runs (no exception
was raised) and reassigns `check_result = SUCCESS`, so the result fed to
`_update_status` is `success`, not `error_code`.  Consequently, in the
spec's end-to-end scenario (`healthy_threshold=1`, `unhealthy_threshold=1`,
status `healthy` after a first 200 probe), a second probe returning 503
leaves the status `healthy` instead of flipping it to `unhealthy`. -/
theorem c1_error_code_overwritten :
    classify_check (ProbeOutcome.response 503) =
      (CheckEffect.classified HealthCheckResult.success,
       Telemetry.unhealthyInc HealthCheckResult.error_code 503) ∧
    (check_fire (CheckConfig.mk 1 1) CallbackBehavior.absent
        (EvalState.mk HealthCheckStatus.healthy [HealthCheckResult.success])
        false true (ProbeOutcome.response 503)).state.status =
      HealthCheckStatus.healthy := by
  exact ⟨rfl, rfl⟩

/-- Claim C2 (code bug): at the concrete failing input — a status
transition (`initializing → healthy` with `healthy_threshold = 1`) whose
registered callback raises an exception with an empty `args` tuple — the
`except Exception` handler's telemetry line `RUNNING_CALLBACK.labels(
type=ex.args[0]).inc()` evaluates `ex.args[0]`, which raises `IndexError`:
the failure is counted zero times (not exactly once), the `IndexError`
propagates out of `_update_status` and `_check`, and the `spawn_later` on
line 249 is skipped, so the next firing is never scheduled. -/
theorem c2_argless_callback_escapes :
    (update_status (CheckConfig.mk 1 1) CallbackBehavior.raisesNoArgs
        initialEvalState HealthCheckResult.success).transitioned = true ∧
    (update_status (CheckConfig.mk 1 1) CallbackBehavior.raisesNoArgs
        initialEvalState HealthCheckResult.success).callbackFailuresCounted = 0 ∧
    (update_status (CheckConfig.mk 1 1) CallbackBehavior.raisesNoArgs
        initialEvalState HealthCheckResult.success).escaped = true ∧
    (check_fire (CheckConfig.mk 1 1) CallbackBehavior.raisesNoArgs
        initialEvalState false true (ProbeOutcome.response 200)).escaped = true ∧
    (check_fire (CheckConfig.mk 1 1) CallbackBehavior.raisesNoArgs
        initialEvalState false true (ProbeOutcome.response 200)).rescheduled = false := by
  exact ⟨by decide, by decide, by decide, by decide, by decide⟩

/-- Counterexample to claim C3 as stated: a probe attempt that exceeds the
configured timeout does not produce the result kind `timeout`.  At the
concrete input where the timeout surfaces as a `URLError` wrapping
`socket.timeout` (a connect-phase timeout), the classifier produces
`unknown_error`; and a read-phase timeout surfaces as a bare socket timeout
that no `except` clause matches, so it escapes unclassified. -/
theorem c3_timeout_not_produced :
    (classify_check (ProbeOutcome.urlError true)).1 =
        CheckEffect.classified HealthCheckResult.unknown_error ∧
      CheckEffect.classified HealthCheckResult.unknown_error ≠
        CheckEffect.classified HealthCheckResult.timeout ∧
      (classify_check ProbeOutcome.socketTimeout).1 = CheckEffect.escaped := by
  exact ⟨rfl, by decide, rfl⟩

/-- Claim C3 as amended: no probe outcome whatsoever is classified as
`timeout` (the `TIMEOUT` result kind is unreachable in `_check`); a
timed-out probe surfacing as a `URLError` is classified `unknown_error`
(telemetry status code 502), and one surfacing as a bare socket timeout
escapes `_check` unclassified. -/
theorem c3_amended_timeout_unreachable :
    (∀ po : ProbeOutcome,
        (classify_check po).1 ≠ CheckEffect.classified HealthCheckResult.timeout) ∧
      (classify_check (ProbeOutcome.urlError true)).1 =
        CheckEffect.classified HealthCheckResult.unknown_error ∧
      (classify_check ProbeOutcome.socketTimeout).1 = CheckEffect.escaped := by
  refine ⟨fun po => ?_, rfl, rfl⟩
  cases po <;> simp [classify_check]

/-- Witness for the amended C3 at a concrete input, applying the amended
theorem at the `urlError` outcome. -/
theorem c3_amended_timeout_unreachable_witness :
    (classify_check (ProbeOutcome.urlError true)).1 ≠
      CheckEffect.classified HealthCheckResult.timeout :=
  c3_amended_timeout_unreachable.1 (ProbeOutcome.urlError true)

/-- Counterexample to claim C4 as stated: a firing that is not suppressed
by a stop request and whose probe raises a bare socket timeout (an
exception type matched by no `except` clause of `_check`) lets the
exception escape to the caller, and the `spawn_later` reschedule on line
249 does not run. -/
theorem c4_escape_without_reschedule :
    (check_fire (CheckConfig.mk 2 2) CallbackBehavior.absent initialEvalState
        false true ProbeOutcome.socketTimeout).escaped = true ∧
      (check_fire (CheckConfig.mk 2 2) CallbackBehavior.absent initialEvalState
        false true ProbeOutcome.socketTimeout).rescheduled = false := by
  exact ⟨rfl, rfl⟩

/-- Claim C4 as amended: in a firing not suppressed by a stop request,
provided the URI builds, the probe outcome is one that `_check` actually
handles (an HTTP response, an `HTTPError`, or a `URLError` — not an
exception of any other type), and any callback exception carries a
non-empty `args` tuple, no exception escapes the firing and the next firing
is rescheduled after `interval` seconds; outcomes surfacing as exceptions
of other types, a failing `port_map` lookup in `_build_check_uri`, and an
argless callback exception all escape the firing and suppress the
reschedule. -/
theorem c4_amended_reschedule (cfg : CheckConfig) (cb : CallbackBehavior)
    (st : EvalState) (po : ProbeOutcome)
    (hcb : cb ≠ CallbackBehavior.raisesNoArgs)
    (hpo : (classify_check po).1 ≠ CheckEffect.escaped) :
    (check_fire cfg cb st false true po).escaped = false ∧
      (check_fire cfg cb st false true po).rescheduled = true := by
  cases po with
  | response code =>
      unfold check_fire classify_check
      rw [if_neg (by decide), if_neg (by decide)]
      dsimp only
      rw [if_neg (by rw [update_status_escaped_false cfg cb st _ hcb]; decide)]
      exact ⟨rfl, rfl⟩
  | httpError code =>
      unfold check_fire classify_check
      rw [if_neg (by decide), if_neg (by decide)]
      dsimp only
      rw [if_neg (by rw [update_status_escaped_false cfg cb st _ hcb]; decide)]
      exact ⟨rfl, rfl⟩
  | urlError timedOut =>
      unfold check_fire classify_check
      rw [if_neg (by decide), if_neg (by decide)]
      dsimp only
      rw [if_neg (by rw [update_status_escaped_false cfg cb st _ hcb]; decide)]
      exact ⟨rfl, rfl⟩
  | socketTimeout => exact absurd rfl hpo
  | otherException => exact absurd rfl hpo

/-- Witness for the amended C4 at a concrete input: a 200 response with a
normally-returning callback neither escapes nor skips the reschedule. -/
theorem c4_amended_reschedule_witness :
    CallbackBehavior.returns ≠ CallbackBehavior.raisesNoArgs ∧
      (classify_check (ProbeOutcome.response 200)).1 ≠ CheckEffect.escaped ∧
      ((check_fire (CheckConfig.mk 2 2) CallbackBehavior.returns initialEvalState
          false true (ProbeOutcome.response 200)).escaped = false ∧
        (check_fire (CheckConfig.mk 2 2) CallbackBehavior.returns initialEvalState
          false true (ProbeOutcome.response 200)).rescheduled = true) :=
  ⟨by decide, by decide,
   c4_amended_reschedule (CheckConfig.mk 2 2) CallbackBehavior.returns
     initialEvalState (ProbeOutcome.response 200) (by decide) (by decide)⟩


lemma countCompletes_cons (s : SchedulerState) (e : SchedEvent)
    (es : List SchedEvent) :
    countCompletes s (e :: es) =
      (if e = SchedEvent.probeComplete ∧ s.probing = true then 1 else 0) +
        countCompletes (schedulerStep s e) es := by
  rfl

lemma schedulerStep_flag (s : SchedulerState) (e : SchedEvent)
    (h : s.stopFlagSet = true) : (schedulerStep s e).stopFlagSet = true := by
  cases e with
  | stopRequest => rfl
  | fireStart =>
      dsimp only [schedulerStep]
      split
      · exact h
      · split
        · exact h
        · exact h
  | probeComplete =>
      dsimp only [schedulerStep]
      split
      · exact h
      · exact h

lemma runSched_flag (es : List SchedEvent) :
    ∀ s : SchedulerState, s.stopFlagSet = true →
      (runSched s es).stopFlagSet = true := by
  induction es with
  | nil => intro s h; exact h
  | cons e es ih => intro s h; exact ih _ (schedulerStep_flag s e h)

lemma fireStart_stopped (s : SchedulerState) (h : s.stopFlagSet = true) :
    (schedulerStep s SchedEvent.fireStart).probing = s.probing ∧
      (schedulerStep s SchedEvent.fireStart).scheduledCount ≤ s.scheduledCount := by
  dsimp only [schedulerStep]
  split
  · exact ⟨rfl, Nat.le_refl _⟩
  · split
    · exact ⟨rfl, Nat.le_refl _⟩
    · exact ⟨rfl, Nat.sub_le _ _⟩

lemma stopRequest_probing (s : SchedulerState) :
    (schedulerStep s SchedEvent.stopRequest).probing = s.probing := by
  rfl

lemma probeComplete_probing_true (s : SchedulerState) (hp : s.probing = true) :
    (schedulerStep s SchedEvent.probeComplete).probing = false := by
  dsimp only [schedulerStep]
  rw [if_pos hp]

lemma probeComplete_stutter (s : SchedulerState) (hp : ¬s.probing = true) :
    schedulerStep s SchedEvent.probeComplete = s := by
  dsimp only [schedulerStep]
  rw [if_neg hp]

lemma countCompletes_le (es : List SchedEvent) :
    ∀ s : SchedulerState, s.stopFlagSet = true →
      countCompletes s es ≤ if s.probing = true then 1 else 0 := by
  induction es with
  | nil =>
      intro s h
      unfold countCompletes
      split <;> omega
  | cons e es ih =>
      intro s h
      have hflag := schedulerStep_flag s e h
      have hrest := ih (schedulerStep s e) hflag
      cases e with
      | stopRequest =>
          rw [countCompletes_cons, if_neg (by simp)]
          rw [stopRequest_probing] at hrest
          omega
      | fireStart =>
          rw [countCompletes_cons, if_neg (by simp)]
          rw [(fireStart_stopped s h).1] at hrest
          omega
      | probeComplete =>
          by_cases hp : s.probing = true
          · have h0 : countCompletes (schedulerStep s SchedEvent.probeComplete) es = 0 := by
              rw [probeComplete_probing_true s hp] at hrest
              simpa using hrest
            rw [countCompletes_cons, if_pos ⟨rfl, hp⟩, h0, hp]
            simp
          · have hrec := ih s h
            rw [countCompletes_cons, if_neg (fun hc => hp hc.2),
              probeComplete_stutter s hp]
            omega

/-- Claim C9: in the small-step model of the scheduling loop, after
`stop()` has set the (never-cleared) stop event, the flag is still set at
any later point; a firing that starts then observes the flag at its top,
issues no probe (`probing` unchanged) and schedules nothing
(`scheduledCount` does not grow); and along any suffix of events after the
stop request — containing any number of fire starts — at most one probe
(the one possibly already in flight when `stop()` ran) runs to
completion. -/
theorem c9_stop_semantics (pre q1 q2 : List SchedEvent) :
    ((runSched (runSched schedInit (pre ++ [SchedEvent.stopRequest])) q1).stopFlagSet
        = true) ∧
      ((schedulerStep (runSched (runSched schedInit (pre ++ [SchedEvent.stopRequest])) q1)
          SchedEvent.fireStart).probing
        = (runSched (runSched schedInit (pre ++ [SchedEvent.stopRequest])) q1).probing) ∧
      ((schedulerStep (runSched (runSched schedInit (pre ++ [SchedEvent.stopRequest])) q1)
          SchedEvent.fireStart).scheduledCount
        ≤ (runSched (runSched schedInit (pre ++ [SchedEvent.stopRequest])) q1).scheduledCount) ∧
      countCompletes (runSched schedInit (pre ++ [SchedEvent.stopRequest]))
          (q1 ++ SchedEvent.fireStart :: q2) ≤ 1 := by
  have hstop : (runSched schedInit (pre ++ [SchedEvent.stopRequest])).stopFlagSet = true := by
    unfold runSched
    rw [List.foldl_append]
    rfl
  have h1 := runSched_flag q1 _ hstop
  refine ⟨h1, (fireStart_stopped _ h1).1, (fireStart_stopped _ h1).2, ?_⟩
  have hcount := countCompletes_le (q1 ++ SchedEvent.fireStart :: q2) _ hstop
  split at hcount <;> omega

/-- Claim C10: the check URI uses the port from the endpoint context's
`port_map` only when both `port_name` is truthy (a non-empty string) and
the key `'port_map'` is present in the endpoint context; in every other
case — including `port_name` set but no `'port_map'` key — the URI silently
falls back to the endpoint's direct port.  (When both conditions hold but
the name is absent from the map, the dict lookup raises `KeyError` rather
than falling back.) -/
theorem c10_port_resolution (pn : Option String) (route : String) (ep : Endpoint) :
    ((pyStrTruthy pn && ep.context_port_map.isSome) = false →
        build_check_uri pn route ep = Except.ok (uriFormat ep.host ep.port route)) ∧
      (∀ n m, pn = some n → ep.context_port_map = some m → (n = "" → False) →
        build_check_uri pn route ep =
          (match m.lookup n with
           | some p => Except.ok (uriFormat ep.host p route)
           | none => Except.error "KeyError")) := by
  constructor
  · intro h
    unfold build_check_uri
    rw [if_neg (by rw [h]; exact Bool.false_ne_true)]
  · intro n m hn hm hne
    unfold build_check_uri
    have htruthy : pyStrTruthy pn = true := by
      rw [hn]
      unfold pyStrTruthy
      simp only [Bool.not_eq_true']
      exact beq_eq_false_iff_ne.mpr (fun hx => hne hx)
    have hsome : ep.context_port_map.isSome = true := by
      rw [hm]; rfl
    rw [if_pos (by rw [htruthy, hsome]; rfl), hn, hm]

/-- Witness for C10 at concrete inputs: with `port_name = "health"` and a
`port_map` containing `health → 9999`, the URI uses port 9999; with the
same `port_name` but no `port_map` key in the context, the URI silently
uses the endpoint's direct port 8080. -/
theorem c10_port_resolution_witness :
    build_check_uri (some "health") "/health"
        (Endpoint.mk "10.0.0.5" 8080 (some [("health", 9999)]) none) =
      Except.ok "http://10.0.0.5:9999/health" ∧
    build_check_uri (some "health") "/health"
        (Endpoint.mk "10.0.0.5" 8080 none none) =
      Except.ok "http://10.0.0.5:8080/health" :=
  ⟨by
    rw [(c10_port_resolution (some "health") "/health"
        (Endpoint.mk "10.0.0.5" 8080 (some [("health", 9999)]) none)).2
      "health" [("health", 9999)] rfl rfl (by decide)]
    rfl,
   by
    rw [(c10_port_resolution (some "health") "/health"
        (Endpoint.mk "10.0.0.5" 8080 none none)).1 (by decide)]
    rfl⟩
